import Mathlib

/-
  Verification development for the gotify-webhooker plugin (src/plugin.go).

  The Go source is shallowly embedded below. Pure data is translated to Lean
  structures; the effectful entry points (Enable, Disable, ValidateAndSetConfig,
  SendPostToWebhook) are translated to explicit state-passing functions over a
  model of their collaborators (storage handler, websocket probe, HTTP client,
  markdown renderer). The concurrent interior of StartListener is translated
  to two functions over explicit event traces: readerRun for the reader
  goroutine (plugin.go lines 213-234) and controlLoop for the select loop
  (plugin.go lines 239-267).
-/

namespace Webhooker

/-- WebhookPost, plugin.go lines 19-23. json.Marshal serializes the three
string fields in declaration order: username, text, html; so a value of this
structure stands for the JSON object with exactly those three members. -/
structure WebhookPost where
  username : String
  text : String
  html : String
deriving Repr, DecidableEq

/-- Config, plugin.go lines 37-41. -/
structure Config where
  webhookUrl : String
  hostServer : String
  clientToken : String
deriving Repr, DecidableEq

/-- Storage, plugin.go lines 43-45: the persisted state record, serialized as
a JSON object with the single member wasEnabled. -/
structure Storage where
  wasEnabled : Bool
deriving Repr, DecidableEq

/-- json.Marshal of a Storage value: the exact byte blob the Go code saves. -/
def marshalStorage (s : Storage) : String :=
  "\x7b\"wasEnabled\":" ++ (if s.wasEnabled then "true" else "false") ++ "\x7d"

/-- json.Unmarshal of a blob into a Storage record, all-or-nothing: the blobs
produced by marshalStorage parse back to the corresponding record, anything
else fails to parse (none). The Go code ignores the returned error, so only
success or failure and the decoded record are observable. -/
def unmarshalStorage (b : String) : Option Storage :=
  if b = marshalStorage ⟨true⟩ then some ⟨true⟩
  else if b = marshalStorage ⟨false⟩ then some ⟨false⟩
  else none

/-- Model of the plugin.StorageHandler collaborator plus the blob it holds.
loadErr and saveErr make a run of the collaborator fail deterministically. -/
structure StoreState where
  stored : String
  loadErr : Option String
  saveErr : Option String
deriving Repr, DecidableEq

/-- storageHandler.Load of the Go code: returns the held blob or the error. -/
def storeLoad (st : StoreState) : Except String String :=
  match st.loadErr with
  | some e => Except.error e
  | none => Except.ok st.stored

/-- storageHandler.Save of the Go code: replaces the held blob, or fails and
leaves it unchanged. The plugin discards the returned value at both call
sites (plugin.go lines 170 and 188). -/
def storeSave (st : StoreState) (b : String) : Except String Unit × StoreState :=
  match st.saveErr with
  | some e => (Except.error e, st)
  | none => (Except.ok (), { st with stored := b })

/-- The mutable fields of WebhookerPlugin, plugin.go lines 47-51 (the storage
handler is passed separately as a StoreState). -/
structure WebhookerPlugin where
  enabled : Bool
  config : Config
deriving Repr, DecidableEq

/-- An HTTP request as assembled by SendPostToWebhook: method and URL from
http.NewRequest, the Content-Type header set at plugin.go line 74, and the
payload whose json.Marshal output is the request body. -/
structure HttpRequest where
  method : String
  url : String
  contentType : String
  body : WebhookPost
deriving Repr, DecidableEq

/-- An HTTP response as seen by client.Do; only the status is modelled since
the Go code reads nothing from the response before closing its body. -/
structure HttpResponse where
  status : Nat
deriving Repr, DecidableEq

/-- Model of the HTTP collaborators used by SendPostToWebhook:
newRequestOk url is whether http.NewRequest with method POST and this url
succeeds (it fails only for a malformed url), and doResult is the transport
outcome of client.Do for a given request. -/
structure HttpEnv where
  newRequestOk : String → Bool
  doResult : HttpRequest → Except String HttpResponse

/-- The payload built at plugin.go lines 54-58: username from the message
title, text from the message body, html from the markdown renderer applied
to the message body. -/
def buildWebhookPost (render : String → String) (t m : String) : WebhookPost :=
  { username := t, text := m, html := render m }

/-- The request SendPostToWebhook hands to client.Do. -/
def webhookRequest (render : String → String) (url t m : String) : HttpRequest :=
  { method := "POST", url := url, contentType := "application/json",
    body := buildWebhookPost render t m }

/-- Result of one SendPostToWebhook call: the returned error value and the
list of requests that were handed to client.Do during the call. -/
structure SendResult where
  result : Except String Unit
  posts : List HttpRequest
deriving Repr

/-- SendPostToWebhook, plugin.go lines 53-85. json.Marshal of the fixed
three-string shape cannot fail, so the marshal error branch at line 64 is
never taken and is not modelled. The response body is closed without being
read and the status is never consulted. -/
def sendPostToWebhook (render : String → String) (env : HttpEnv)
    (webhookUrl : String) (title message : String) : SendResult :=
  let req := webhookRequest render webhookUrl title message
  if env.newRequestOk webhookUrl then
    match env.doResult req with
    | Except.error e => ⟨Except.error e, [req]⟩
    | Except.ok _res => ⟨Except.ok (), [req]⟩
  else
    ⟨Except.error "request construction failed", []⟩

/-- One inbound websocket frame as the reader goroutine sees it: either it
fails json.Unmarshal into a plugin.Message, or it decodes to an event with a
title and a message body. -/
inductive Frame where
  | malformed
  | event (title message : String)
deriving Repr, DecidableEq

/-- The event carried by a well-formed frame. -/
def eventOf : Frame → Option (String × String)
  | Frame.malformed => none
  | Frame.event t m => some (t, m)

/-- How the reader goroutine stopped consuming frames. -/
inductive ReaderExit where
  | exhausted
  | decodeAbort
deriving Repr, DecidableEq

/-- The reader goroutine, plugin.go lines 213-234, run over the list of
frames delivered by the connection. The first component collects, in order,
every SendPostToWebhook invocation (the event and the outcome the forward
function returned for it); the forward outcome is only logged at line 231
and never alters control flow. A frame that fails json.Unmarshal hits
log.Fatal at line 225 and consumption stops there (decodeAbort); running out
of frames models ReadMessage returning an error at the end of the stream
(exhausted). -/
def readerRun (forward : String → String → Except String Unit) :
    List Frame → List ((String × String) × Except String Unit) × ReaderExit
  | [] => ([], ReaderExit.exhausted)
  | Frame.malformed :: _ => ([], ReaderExit.decodeAbort)
  | Frame.event t m :: rest =>
      (((t, m), forward t m) :: (readerRun forward rest).1,
        (readerRun forward rest).2)

/-- Events observable by the select loop of StartListener while connected:
the done channel closing, a ticker tick whose keepalive write succeeds or
fails, or an os.Interrupt signal whose close-frame write succeeds or fails. -/
inductive CtrlEvent where
  | readerDone
  | tick (writeOk : Bool)
  | interrupt (closeWriteOk : Bool)
deriving Repr, DecidableEq

/-- One step of an engine run: either an event reaches the select loop, or
the reader goroutine hits log.Fatal (ReadMessage error at plugin.go line 220
or json.Unmarshal failure at line 225), which calls os.Exit and terminates
the whole process. -/
inductive RunEvent where
  | ctrl (e : CtrlEvent)
  | readerFatal
deriving Repr, DecidableEq

/-- How an engine run ended: the select loop returned (so deferred calls
ran), the process was killed by log.Fatal (deferred calls skipped), or the
trace ended with the loop still running. -/
inductive RunExit where
  | returned (err : Option String)
  | aborted
  | running
deriving Repr, DecidableEq

/-- Outcome of an engine run: how it exited and how many times ws.Close was
invoked on the connection handle. -/
structure RunOutcome where
  exit : RunExit
  closes : Nat
deriving Repr, DecidableEq

/-- The select loop of StartListener, plugin.go lines 239-267, after a
successful dial, driven by a trace of run events. Every return path of the
Go function passes through the deferred ws.Close at line 207, counted here
as one close; log.Fatal in the reader goroutine calls os.Exit, so on that
path neither the deferred close of the handle nor the deferred close of the
done channel runs. -/
def controlLoop : List RunEvent → RunOutcome
  | [] => ⟨RunExit.running, 0⟩
  | RunEvent.readerFatal :: _ => ⟨RunExit.aborted, 0⟩
  | RunEvent.ctrl CtrlEvent.readerDone :: _ => ⟨RunExit.returned none, 1⟩
  | RunEvent.ctrl (CtrlEvent.tick true) :: rest => controlLoop rest
  | RunEvent.ctrl (CtrlEvent.tick false) :: _ =>
      ⟨RunExit.returned (some "write error"), 1⟩
  | RunEvent.ctrl (CtrlEvent.interrupt false) :: _ =>
      ⟨RunExit.returned (some "close error"), 1⟩
  | RunEvent.ctrl (CtrlEvent.interrupt true) :: _ =>
      ⟨RunExit.returned none, 1⟩

/-- Everything one Enable call produces: the returned error value, the
updated plugin fields, the updated storage collaborator, whether a listener
goroutine was spawned, and the stream URL it was spawned with. -/
structure EnableResult where
  result : Except String Unit
  plugin : WebhookerPlugin
  store : StoreState
  engineStarted : Bool
  streamUrl : Option String
deriving Repr

/-- Enable, plugin.go lines 135-173, with the reachability probe (TestSocket,
lines 87-94) passed in as a boolean predicate on the stream URL. The listener
goroutine is spawned and the enabled flag set before storage is touched, so
on a load error the engine is already started and the flag already true. The
loaded bytes are discarded: a fresh zero-value Storage gets WasEnabled set to
true and is marshalled at line 169. The Save error at line 170 is discarded. -/
def enableRun (probe : String → Bool) (p : WebhookerPlugin) (st : StoreState) :
    EnableResult :=
  if p.config.hostServer.length < 1 then
    ⟨Except.error "Please enter the correct web server", p, st, false, none⟩
  else if p.config.clientToken.length < 1 then
    ⟨Except.error "Please enter the client token", p, st, false, none⟩
  else if p.config.webhookUrl.length < 1 then
    ⟨Except.error "Please enter the correct webhook url", p, st, false, none⟩
  else
    let serverUrl := p.config.hostServer ++ "/stream?token=" ++ p.config.clientToken
    if probe serverUrl then
      let p1 := { p with enabled := true }
      match storeLoad st with
      | Except.error e => ⟨Except.error e, p1, st, true, some serverUrl⟩
      | Except.ok _ =>
          ⟨Except.ok (), p1, (storeSave st (marshalStorage ⟨true⟩)).2, true,
            some serverUrl⟩
    else
      ⟨Except.error "Web server url or client_token is not valid", p, st, false, none⟩

/-- Disable, plugin.go lines 175-191: clears the enabled flag, loads the
blob only to surface a load error, discards the loaded bytes, and saves the
marshalling of a fresh Storage with WasEnabled false. The Save error at line
188 is discarded. -/
def disableRun (p : WebhookerPlugin) (st : StoreState) :
    Except String Unit × WebhookerPlugin × StoreState :=
  let p1 := { p with enabled := false }
  match storeLoad st with
  | Except.error e => (Except.error e, p1, st)
  | Except.ok _ =>
      (Except.ok (), p1, (storeSave st (marshalStorage ⟨false⟩)).2)

/-- ValidateAndSetConfig, plugin.go lines 109-133. The Config struct carries
no validator tags, so validator.New().Struct always succeeds and the error
branch at lines 115-118 is never taken. The config is stored, the blob is
loaded (a load error is returned), json.Unmarshal into a zero-value Storage
is attempted with its error discarded at line 129, and the enabled flag is
set from the resulting wasEnabled field. The third component records whether
a listener goroutine was started during the call: never. -/
def validateAndSetConfig (conf : Config) (p : WebhookerPlugin) (st : StoreState) :
    Except String Unit × WebhookerPlugin × Bool :=
  let p1 := { p with config := conf }
  match storeLoad st with
  | Except.error e => (Except.error e, p1, false)
  | Except.ok bytes =>
      let storage := (unmarshalStorage bytes).getD ⟨false⟩
      (Except.ok (), { p1 with enabled := storage.wasEnabled }, false)

/-- Concrete input refuting claim C1 as stated: frame 0 is malformed, frame 1
is a well-formed event, frame 2 is malformed. Frame 2 fails to decode and
every frame after index 2 (there is none) is well-formed, yet the reader
aborts already at frame 0 and forwards nothing, not the well-formed frames
with index below 2. -/
def cexFrames : List Frame :=
  [Frame.malformed, Frame.event "a" "b", Frame.malformed]

/-- A forward function for concrete reader runs: every POST succeeds. -/
def cexForward : String → String → Except String Unit :=
  fun _ _ => Except.ok ()

/-- A fully populated plugin for concrete runs: webhook URL, stream host and
client token all non-empty. -/
def wPlugin : WebhookerPlugin :=
  ⟨false, ⟨"http://example.com/hook", "ws://localhost:8080", "abc"⟩⟩

/-- A storage collaborator whose Save fails; used to exercise the discarded
Save error of Enable and Disable. -/
def cexSaveStore : StoreState := ⟨"", none, some "disk full"⟩

/-- Helper: every terminating run of the select loop closes the connection
handle exactly once, because every return statement of StartListener after
the dial passes through the deferred ws.Close. -/
theorem controlLoop_returned_closes (tr : List RunEvent) (e : Option String)
    (h : (controlLoop tr).exit = RunExit.returned e) :
    (controlLoop tr).closes = 1 := by
  induction tr with
  | nil => simp [controlLoop] at h
  | cons ev rest ih =>
    cases ev with
    | readerFatal => simp [controlLoop] at h
    | ctrl c =>
      cases c with
      | readerDone => simp [controlLoop]
      | tick ok =>
        cases ok with
        | true => exact ih (by simpa [controlLoop] using h)
        | false => simp [controlLoop]
      | interrupt ok => cases ok <;> simp [controlLoop]

/-- C2: evaluation of the engine run at the failing input. When the reader
goroutine terminates through log.Fatal (a frame that fails to decode, or
ReadMessage returning an error such as the upstream closing the stream), the
process exits: the deferred ws.Close never runs and the connection handle is
closed zero times, not once. -/
theorem controlLoop_readerFatal_skips_close :
    controlLoop [RunEvent.readerFatal] = ⟨RunExit.aborted, 0⟩ := rfl

/-- C1 counterexample: in cexFrames, frame 2 fails to decode and all frames
after index 2 are well-formed (there are none), so the claim as stated
requires the reader to forward exactly the well-formed frames with index
below 2, namely the event of frame 1; but the reader run forwards nothing,
because it already aborts at the malformed frame 0. -/
theorem reader_midstream_decode_cex :
    cexFrames.get? 2 = some Frame.malformed
    ∧ (cexFrames.take 2).filterMap eventOf = [("a", "b")]
    ∧ (readerRun cexForward cexFrames).1.map Prod.fst = []
    ∧ (readerRun cexForward cexFrames).1.map Prod.fst
        ≠ (cexFrames.take 2).filterMap eventOf := by
  refine ⟨rfl, rfl, rfl, ?_⟩
  intro h
  simp [cexFrames, readerRun, eventOf, cexForward] at h

/-- C1 (amended): if frame k is the first frame that fails to decode as a
NotificationEvent (every frame before it is a well-formed event), then the
reader loop forwards exactly the frames with index below k, in order, and
stops reading at frame k with the decode abort, so frames after k are never
forwarded. -/
theorem reader_stops_at_first_decode_failure
    (f : String → String → Except String Unit) (frames : List Frame) (k : Nat)
    (hk : frames.get? k = some Frame.malformed)
    (hbefore : ∀ j, j < k → ∃ t m, frames.get? j = some (Frame.event t m)) :
    (readerRun f frames).1.map Prod.fst = (frames.take k).filterMap eventOf
    ∧ (readerRun f frames).2 = ReaderExit.decodeAbort := by
  induction k generalizing frames with
  | zero =>
    cases frames with
    | nil => simp at hk
    | cons f0 rest =>
      simp only [List.get?] at hk
      cases hk
      simp [readerRun]
  | succ k ih =>
    cases frames with
    | nil => simp at hk
    | cons f0 rest =>
      obtain ⟨t, m, h0⟩ := hbefore 0 (Nat.succ_pos k)
      simp only [List.get?] at h0
      cases h0
      have hk2 : rest.get? k = some Frame.malformed := by simpa using hk
      have hb2 : ∀ j, j < k → ∃ t m, rest.get? j = some (Frame.event t m) := by
        intro j hj
        have h3 := hbefore (j + 1) (Nat.succ_lt_succ hj)
        simpa using h3
      obtain ⟨ih1, ih2⟩ := ih rest hk2 hb2
      exact ⟨by simp [readerRun, eventOf, ih1], by simp [readerRun, ih2]⟩

/-- C1 witness at a concrete run: frames [event a b, malformed, event c d]
with the decode failure first occurring at index 1. -/
theorem reader_stops_at_first_decode_failure_witness :
    (readerRun cexForward
        [Frame.event "a" "b", Frame.malformed, Frame.event "c" "d"]).1.map Prod.fst
      = ([Frame.event "a" "b", Frame.malformed, Frame.event "c" "d"].take 1).filterMap eventOf
    ∧ (readerRun cexForward
        [Frame.event "a" "b", Frame.malformed, Frame.event "c" "d"]).2
      = ReaderExit.decodeAbort := by
  refine reader_stops_at_first_decode_failure cexForward _ 1 rfl ?_
  intro j hj
  have hj0 : j = 0 := by omega
  subst hj0
  exact ⟨"a", "b", rfl⟩

/-- C8: a forward failure does not stop the reader loop. Prepending a
well-formed event whose forward fails yields exactly one forward attempt for
that event (no retry) followed by the unchanged processing of the remaining
frames, with the same exit. -/
theorem forward_failure_does_not_stop_reader
    (f : String → String → Except String Unit) (t m err : String)
    (rest : List Frame) (hfail : f t m = Except.error err) :
    (readerRun f (Frame.event t m :: rest)).1
      = ((t, m), Except.error err) :: (readerRun f rest).1
    ∧ (readerRun f (Frame.event t m :: rest)).2 = (readerRun f rest).2 := by
  simp [readerRun, hfail]

/-- C8 witness: a concrete run where the forward of the first event fails
and the following well-formed frame is still read and forwarded. -/
theorem forward_failure_does_not_stop_reader_witness :
    (readerRun (fun _ _ => Except.error "post failed")
        [Frame.event "T" "M", Frame.event "c" "d"]).1
      = (("T", "M"), Except.error "post failed")
          :: (readerRun (fun _ _ => Except.error "post failed") [Frame.event "c" "d"]).1
    ∧ (readerRun (fun _ _ => Except.error "post failed")
        [Frame.event "T" "M", Frame.event "c" "d"]).2
      = (readerRun (fun _ _ => Except.error "post failed") [Frame.event "c" "d"]).2 :=
  forward_failure_does_not_stop_reader (fun _ _ => Except.error "post failed")
    "T" "M" "post failed" [Frame.event "c" "d"] rfl

/-- C4: for every event with title t and body m whose webhook URL admits
request construction, SendPostToWebhook hands exactly one request to
client.Do: a POST to the configured webhook URL with the Content-Type header
application/json and, as body, the JSON object with username t, text m and
html the markdown renderer applied to m. -/
theorem forward_post_shape (render : String → String) (env : HttpEnv)
    (url t m : String) (hreq : env.newRequestOk url = true) :
    (sendPostToWebhook render env url t m).posts
      = [{ method := "POST", url := url, contentType := "application/json",
           body := { username := t, text := m, html := render m } }] := by
  unfold sendPostToWebhook
  rw [hreq]
  simp only [if_true]
  cases h : env.doResult (webhookRequest render url t m) <;>
    simp [webhookRequest, buildWebhookPost]

/-- C4 witness at a concrete renderer, environment, URL and event. -/
theorem forward_post_shape_witness :
    (sendPostToWebhook (fun s => "<p>" ++ s ++ "</p>")
        ⟨fun _ => true, fun _ => Except.ok ⟨200⟩⟩
        "http://example.com/hook" "T" "M").posts
      = [{ method := "POST", url := "http://example.com/hook",
           contentType := "application/json",
           body := { username := "T", text := "M", html := "<p>M</p>" } }] :=
  forward_post_shape (fun s => "<p>" ++ s ++ "</p>")
    ⟨fun _ => true, fun _ => Except.ok ⟨200⟩⟩
    "http://example.com/hook" "T" "M" rfl

/-- C9: SendPostToWebhook returns success exactly when the request could be
constructed and the transport delivered some response, whatever its status:
the response status and body are never inspected, so any status code counts
as success and an error arises only from request construction or transport
failure. -/
theorem forward_ignores_response_status (render : String → String)
    (env : HttpEnv) (url t m : String) :
    (sendPostToWebhook render env url t m).result = Except.ok ()
      ↔ (env.newRequestOk url = true
          ∧ ∃ r, env.doResult (webhookRequest render url t m) = Except.ok r) := by
  unfold sendPostToWebhook
  cases hreq : env.newRequestOk url with
  | false =>
    simp only [if_false, Bool.false_eq_true]
    constructor
    · intro h; exact absurd h (by simp)
    · rintro ⟨h, -⟩; exact absurd h (by simp)
  | true =>
    simp only [if_true]
    cases h : env.doResult (webhookRequest render url t m) with
    | error e => simp [h]
    | ok r => simp [h]

/-- C9 witness: with a transport that answers status 500, the forward still
returns success. -/
theorem forward_ignores_response_status_witness :
    (sendPostToWebhook (fun s => s)
        ⟨fun _ => true, fun _ => Except.ok ⟨500⟩⟩
        "http://example.com/hook" "T" "M").result = Except.ok () :=
  (forward_ignores_response_status (fun s => s)
      ⟨fun _ => true, fun _ => Except.ok ⟨500⟩⟩
      "http://example.com/hook" "T" "M").mpr ⟨rfl, ⟨⟨500⟩, rfl⟩⟩

/-- Helper: the length guard used by Enable holds exactly for the empty
string, matching the Go condition len(s) < 1. -/
theorem length_lt_one_iff (s : String) : s.length = 0 ↔ s = "" := by
  constructor
  · intro h
    cases s with
    | mk data =>
      have hd : data = [] := List.length_eq_zero.mp h
      subst hd
      rfl
  · intro h
    subst h
    rfl

/-- C5: whenever at least one of stream host, auth token or webhook URL is
empty, Enable returns the error naming the first missing field in checking
order (stream host, then auth token, then webhook URL), starts no engine
task, and leaves both the plugin fields and the persisted state unchanged. -/
theorem enable_config_incomplete (probe : String → Bool)
    (p : WebhookerPlugin) (st : StoreState)
    (h : p.config.hostServer = "" ∨ p.config.clientToken = ""
          ∨ p.config.webhookUrl = "") :
    (enableRun probe p st).result = Except.error
        (if p.config.hostServer = "" then "Please enter the correct web server"
         else if p.config.clientToken = "" then "Please enter the client token"
         else "Please enter the correct webhook url")
    ∧ (enableRun probe p st).plugin = p
    ∧ (enableRun probe p st).store = st
    ∧ (enableRun probe p st).engineStarted = false := by
  by_cases hA : p.config.hostServer = ""
  · simp [enableRun, length_lt_one_iff, hA]
  · by_cases hB : p.config.clientToken = ""
    · simp [enableRun, length_lt_one_iff, hA, hB]
    · by_cases hC : p.config.webhookUrl = ""
      · simp [enableRun, length_lt_one_iff, hA, hB, hC]
      · rcases h with h | h | h <;> [exact absurd h hA; exact absurd h hB;
          exact absurd h hC]

/-- C5 witness: a configuration with stream host present but auth token
empty fails with the auth token error and changes nothing. -/
theorem enable_config_incomplete_witness :
    (enableRun (fun _ => true)
        ⟨false, ⟨"http://example.com/hook", "ws://localhost:8080", ""⟩⟩
        ⟨"", none, none⟩).result = Except.error "Please enter the client token"
    ∧ (enableRun (fun _ => true)
        ⟨false, ⟨"http://example.com/hook", "ws://localhost:8080", ""⟩⟩
        ⟨"", none, none⟩).plugin
      = ⟨false, ⟨"http://example.com/hook", "ws://localhost:8080", ""⟩⟩
    ∧ (enableRun (fun _ => true)
        ⟨false, ⟨"http://example.com/hook", "ws://localhost:8080", ""⟩⟩
        ⟨"", none, none⟩).store = ⟨"", none, none⟩
    ∧ (enableRun (fun _ => true)
        ⟨false, ⟨"http://example.com/hook", "ws://localhost:8080", ""⟩⟩
        ⟨"", none, none⟩).engineStarted = false := by
  have h := enable_config_incomplete (fun _ => true)
    ⟨false, ⟨"http://example.com/hook", "ws://localhost:8080", ""⟩⟩
    ⟨"", none, none⟩ (Or.inr (Or.inl rfl))
  refine ⟨?_, h.2⟩
  have h1 := h.1
  simpa using h1

/-- C3 counterexample: with a fully populated configuration, a succeeding
probe and a storage collaborator whose Save fails, both Enable and Disable
return success, because the value returned by Save is discarded at plugin.go
lines 170 and 188; the claim requires them to return an error. -/
theorem save_failure_ignored_cex :
    cexSaveStore.saveErr = some "disk full"
    ∧ (enableRun (fun _ => true) wPlugin cexSaveStore).result = Except.ok ()
    ∧ (disableRun wPlugin cexSaveStore).1 = Except.ok () :=
  ⟨rfl, rfl, rfl⟩

/-- C3 (amended): for every call to Enable (on a complete configuration with
a succeeding probe) or Disable, a failure of the storage load is returned
synchronously as an error to the caller; a failure of the save is never
surfaced — the call still returns success. -/
theorem storage_error_propagation (probe : String → Bool)
    (p : WebhookerPlugin) (st : StoreState)
    (h1 : 0 < p.config.hostServer.length)
    (h2 : 0 < p.config.clientToken.length)
    (h3 : 0 < p.config.webhookUrl.length)
    (hp : probe (p.config.hostServer ++ "/stream?token=" ++ p.config.clientToken)
            = true) :
    (∀ e, st.loadErr = some e →
        (enableRun probe p st).result = Except.error e
        ∧ (disableRun p st).1 = Except.error e)
    ∧ (st.loadErr = none →
        (enableRun probe p st).result = Except.ok ()
        ∧ (disableRun p st).1 = Except.ok ()) := by
  have hn1 : ¬ p.config.hostServer.length = 0 := by omega
  have hn2 : ¬ p.config.clientToken.length = 0 := by omega
  have hn3 : ¬ p.config.webhookUrl.length = 0 := by omega
  constructor
  · intro e he
    constructor <;> simp [enableRun, disableRun, storeLoad, he, hn1, hn2, hn3, hp]
  · intro he
    constructor <;>
      simp [enableRun, disableRun, storeLoad, storeSave, he, hn1, hn2, hn3, hp]

/-- C3 witness: a concrete failing load is surfaced from both calls. -/
theorem storage_error_propagation_witness :
    (enableRun (fun _ => true) wPlugin ⟨"", some "load broke", none⟩).result
      = Except.error "load broke"
    ∧ (disableRun wPlugin ⟨"", some "load broke", none⟩).1
      = Except.error "load broke" :=
  (storage_error_propagation (fun _ => true) wPlugin ⟨"", some "load broke", none⟩
      (by decide) (by decide) (by decide) rfl).1 "load broke" rfl

/-- C6: for a complete configuration with a succeeding probe and a working
storage collaborator, Enable followed immediately by Disable returns
success, leaves the in-memory enabled flag false, and leaves the persisted
blob equal to the JSON object with wasEnabled false. -/
theorem enable_then_disable (probe : String → Bool)
    (p : WebhookerPlugin) (st : StoreState)
    (h1 : 0 < p.config.hostServer.length)
    (h2 : 0 < p.config.clientToken.length)
    (h3 : 0 < p.config.webhookUrl.length)
    (hp : probe (p.config.hostServer ++ "/stream?token=" ++ p.config.clientToken)
            = true)
    (hload : st.loadErr = none) (hsave : st.saveErr = none) :
    (disableRun (enableRun probe p st).plugin (enableRun probe p st).store).1
      = Except.ok ()
    ∧ (disableRun (enableRun probe p st).plugin
        (enableRun probe p st).store).2.1.enabled = false
    ∧ (disableRun (enableRun probe p st).plugin
        (enableRun probe p st).store).2.2.stored = "\x7b\"wasEnabled\":false\x7d" := by
  have hn1 : ¬ p.config.hostServer.length = 0 := by omega
  have hn2 : ¬ p.config.clientToken.length = 0 := by omega
  have hn3 : ¬ p.config.webhookUrl.length = 0 := by omega
  refine ⟨?_, ?_, ?_⟩ <;>
    simp [enableRun, disableRun, storeLoad, storeSave, marshalStorage,
      hn1, hn2, hn3, hp, hload, hsave]

/-- C6 witness at a concrete configuration and storage collaborator. -/
theorem enable_then_disable_witness :
    (disableRun (enableRun (fun _ => true) wPlugin ⟨"", none, none⟩).plugin
        (enableRun (fun _ => true) wPlugin ⟨"", none, none⟩).store).1 = Except.ok ()
    ∧ (disableRun (enableRun (fun _ => true) wPlugin ⟨"", none, none⟩).plugin
        (enableRun (fun _ => true) wPlugin ⟨"", none, none⟩).store).2.1.enabled = false
    ∧ (disableRun (enableRun (fun _ => true) wPlugin ⟨"", none, none⟩).plugin
        (enableRun (fun _ => true) wPlugin ⟨"", none, none⟩).store).2.2.stored
      = "\x7b\"wasEnabled\":false\x7d" :=
  enable_then_disable (fun _ => true) wPlugin ⟨"", none, none⟩
    (by decide) (by decide) (by decide) rfl rfl rfl

/-- C7: saving the marshalled record with wasEnabled true through the
storage collaborator and then running the restore step (configuration
re-validation) returns success, sets the in-memory enabled flag to true, and
starts no engine task. -/
theorem restore_roundtrip (conf : Config) (p : WebhookerPlugin) (st : StoreState)
    (hload : st.loadErr = none) (hsave : st.saveErr = none) :
    (validateAndSetConfig conf p (storeSave st (marshalStorage ⟨true⟩)).2).1
      = Except.ok ()
    ∧ (validateAndSetConfig conf p
        (storeSave st (marshalStorage ⟨true⟩)).2).2.1.enabled = true
    ∧ (validateAndSetConfig conf p
        (storeSave st (marshalStorage ⟨true⟩)).2).2.2 = false := by
  refine ⟨?_, ?_, ?_⟩ <;>
    simp [validateAndSetConfig, storeSave, storeLoad, unmarshalStorage,
      hload, hsave]

/-- C7 witness at a concrete configuration and storage collaborator. -/
theorem restore_roundtrip_witness :
    (validateAndSetConfig wPlugin.config wPlugin
        (storeSave ⟨"", none, none⟩ (marshalStorage ⟨true⟩)).2).1 = Except.ok ()
    ∧ (validateAndSetConfig wPlugin.config wPlugin
        (storeSave ⟨"", none, none⟩ (marshalStorage ⟨true⟩)).2).2.1.enabled = true
    ∧ (validateAndSetConfig wPlugin.config wPlugin
        (storeSave ⟨"", none, none⟩ (marshalStorage ⟨true⟩)).2).2.2 = false :=
  restore_roundtrip wPlugin.config wPlugin ⟨"", none, none⟩ rfl rfl

/-- C10: when the load succeeds but the held blob does not parse as the
persisted-state record, the restore step ignores the parse failure: it
returns success and sets the in-memory enabled flag to false, the zero value
of the record. -/
theorem restore_ignores_bad_blob (conf : Config) (p : WebhookerPlugin)
    (st : StoreState) (hload : st.loadErr = none)
    (hbad : unmarshalStorage st.stored = none) :
    (validateAndSetConfig conf p st).1 = Except.ok ()
    ∧ (validateAndSetConfig conf p st).2.1.enabled = false := by
  constructor <;> simp [validateAndSetConfig, storeLoad, hload, hbad]

/-- C10 witness: a blob that is not the serialization of the record. -/
theorem restore_ignores_bad_blob_witness :
    (validateAndSetConfig wPlugin.config wPlugin ⟨"garbage", none, none⟩).1
      = Except.ok ()
    ∧ (validateAndSetConfig wPlugin.config wPlugin
        ⟨"garbage", none, none⟩).2.1.enabled = false :=
  restore_ignores_bad_blob wPlugin.config wPlugin ⟨"garbage", none, none⟩
    rfl (by decide)

end Webhooker
